import Mathlib

/-!
# Verification of clipmail (`clipmail_raycast.py`)

Shallow embedding of the clipmail single-run pipeline: clipboard reading,
configuration validation, Gmail authentication, email sending, and the
audit logger with its git commands.  External effects (the filesystem, the
clipboard utility, the OAuth library, the Gmail API, the git subprocesses)
are modelled by explicit state (`String → Option String` maps for file
contents) and environment records of boolean outcome flags; exceptions are
modelled with `Except` / early-return result structures.
-/

deriving instance DecidableEq for Except

namespace Clipmail

/-! ## String helpers modelling Python primitives -/

/-- The characters Python's `str.strip()` removes. -/
def isPyWhitespace (c : Char) : Bool :=
  c = ' ' || c = '\t' || c = '\n' || c = '\r' || c = '\x0b' || c = '\x0c'

/-- Python `str.strip()`: remove leading and trailing whitespace. -/
def pyStrip (s : String) : String :=
  List.asString
    (List.reverse (List.dropWhile isPyWhitespace
      (List.reverse (List.dropWhile isPyWhitespace s.toList))))

/-- Split a character list on a separator character; Python `str.split(sep)`
semantics (so the empty string yields `[[]]`). -/
def splitOnCharList (c : Char) : List Char → List (List Char)
  | [] => [[]]
  | x :: xs =>
    let r := splitOnCharList c xs
    if x = c then [] :: r
    else
      match r with
      | [] => [[x]]
      | y :: ys => (x :: y) :: ys

/-- Python `s.split(c)` for a single-character separator. -/
def pySplitChar (c : Char) (s : String) : List String :=
  (splitOnCharList c s.toList).map List.asString

/-- `os.path.basename`: the final path segment. -/
def basename (p : String) : String :=
  (pySplitChar '/' p).getLastD ""

/-- Is the first character list a prefix of the second? -/
def startsWithChars : List Char → List Char → Bool
  | [], _ => true
  | _ :: _, [] => false
  | a :: as, b :: bs => a = b && startsWithChars as bs

/-- `os.path.expanduser` restricted to the `~` and `~/...` forms the script
uses (the `~user` form is not modelled). -/
def expanduser (home p : String) : String :=
  if p = "~" then home
  else if startsWithChars ['~', '/'] p.toList then
    home ++ List.asString (p.toList.drop 1)
  else p

/-! ## Clipboard reader (`get_clipboard_content`, lines 71-102)

`fileRaw` and `textRaw` are the stdout of `pbpaste -Prefer file` and
`pbpaste -Prefer txt`; `ex` is `os.path.exists`.  The `except` clause of the
source (subprocess failure) returns `(None, None)` and is not a reachable
path of this pure model. -/

/-- The fixed body used when a file from the clipboard is attached
(line 85 of the source). -/
def fileBodyGreeting : String :=
  "Hi Mark, here is the file that you have sent to ClipMail."

/-- The fixed body prepended to plain clipboard text (line 94). -/
def textBodyGreeting : String :=
  "Hi Mark, Below is the text that you sent to ClipMail.\n\n"

/-- The `for file in files` loop of lines 81-87: strip each candidate and
return the first stripped entry that is non-empty and exists on disk. -/
def scanFiles (ex : String → Bool) : List String → Option String
  | [] => none
  | f :: rest =>
    let f' := pyStrip f
    if !f'.isEmpty && ex f' then some f' else scanFiles ex rest

/-- `get_clipboard_content`: returns `(message_text, attachment_path)`. -/
def get_clipboard_content (fileRaw textRaw : String) (ex : String → Bool) :
    Option String × Option String :=
  let file_path := pyStrip fileRaw
  match (if !file_path.isEmpty then scanFiles ex (pySplitChar '\n' file_path)
         else none) with
  | some f => (some fileBodyGreeting, some f)
  | none =>
    let text_content := pyStrip textRaw
    if !text_content.isEmpty then (some (textBodyGreeting ++ text_content), none)
    else (none, none)

/-! ## Configuration (`validate_config`, lines 104-118)

A configuration is a JSON object; each field is absent (`none`) or a string.
Python truthiness of `config.get(k)` is false for both an absent key and an
empty string. -/

structure Config where
  credentials_file : Option String
  token_file : Option String
  recipient_emails : Option String
  git_repo_path : Option String
deriving DecidableEq

/-- Python truthiness of `config.get(field)`. -/
def truthy : Option String → Bool
  | none => false
  | some s => !s.isEmpty

/-- Error message printed for a missing field. -/
def requiredMsg (field : String) : String :=
  "Error: " ++ field ++ " is required in config"

/-- `validate_config`: returns the boolean result together with the error
lines printed. -/
def validate_config (config : Config) : Bool × List String :=
  if !truthy config.credentials_file then (false, [requiredMsg "credentials_file"])
  else if !truthy config.token_file then (false, [requiredMsg "token_file"])
  else if !truthy config.recipient_emails then (false, [requiredMsg "recipient_emails"])
  else if !truthy config.git_repo_path then (false, [requiredMsg "git_repo_path"])
  else (true, [])

/-- Spec-side view: the fields that are missing or empty, in the fixed
order credentials_file, token_file, recipient_emails, git_repo_path. -/
def missingFields (c : Config) : List String :=
  (if truthy c.credentials_file then [] else ["credentials_file"]) ++
  (if truthy c.token_file then [] else ["token_file"]) ++
  (if truthy c.recipient_emails then [] else ["recipient_emails"]) ++
  (if truthy c.git_repo_path then [] else ["git_repo_path"])

/-! ## Gmail authentication (`authenticate_gmail`, lines 120-161)

The OAuth library is abstracted: a `Creds` value records the flags the
source inspects (`valid`, `expired`, `refresh_token`) together with its
serialized form `json` (`creds.to_json`).  The environment supplies the
outcomes of the external calls: parsing the token file, `creds.refresh`,
and the interactive `InstalledAppFlow` run.  The filesystem is a map from
paths to file contents; `os.path.exists p` is `files p ≠ none`.
`os.makedirs` only creates directories and is not modelled (it never
changes any file's contents). -/

structure Creds where
  valid : Bool
  expired : Bool
  refresh_token : Bool
  json : String
deriving DecidableEq

/-- Outcomes of the external OAuth calls. -/
structure AuthEnv where
  /-- `Credentials.from_authorized_user_file` applied to the token file's
  contents (a parse failure, which the source would re-raise, is not
  modelled). -/
  parseCreds : String → Creds
  /-- whether `creds.refresh(Request())` succeeds -/
  refreshOk : Bool
  /-- the in-memory credentials after a successful refresh -/
  refreshed : Creds → Creds
  /-- whether `flow.run_local_server(port=0)` succeeds -/
  flowOk : Bool
  /-- the credentials produced by a successful interactive flow -/
  flowCreds : Creds

/-- How `authenticate_gmail` can fail: `exited` is the `sys.exit(1)` for a
missing OAuth credentials file (a `SystemExit`, which is not an `Exception`
and passes through every `except Exception` handler); `raised` is any
exception re-raised by the function's own handler (lines 157-161). -/
inductive AuthErr
  | exited
  | raised
deriving DecidableEq

structure AuthResult where
  outcome : Except AuthErr Creds
  /-- the filesystem after authentication -/
  files : String → Option String
  /-- whether the interactive authorization flow was started -/
  ranFlow : Bool

/-- The `else` branch of lines 139-154: check the credentials file exists
(else `sys.exit(1)`), run the interactive flow, and persist the resulting
token to the token file. -/
def interactiveAuth (env : AuthEnv) (files : String → Option String)
    (credentials_file token_file : String) : AuthResult :=
  if files credentials_file = none then
    { outcome := .error .exited, files := files, ranFlow := false }
  else if env.flowOk then
    let c := env.flowCreds
    { outcome := .ok c,
      files := fun p => if p = token_file then some c.json else files p,
      ranFlow := true }
  else
    { outcome := .error .raised, files := files, ranFlow := true }

/-- `authenticate_gmail(credentials_file, token_file)`.  Returns the
credentials handed to `build("gmail", "v1", ...)` or the error, the
resulting filesystem, and whether the interactive flow ran. -/
def authenticate_gmail (home credentials_file token_file : String)
    (env : AuthEnv) (files : String → Option String) : AuthResult :=
  let token_file := expanduser home token_file
  let credentials_file := expanduser home credentials_file
  match (files token_file).map env.parseCreds with
  | some c =>
    if c.valid then { outcome := .ok c, files := files, ranFlow := false }
    else if c.expired && c.refresh_token then
      if env.refreshOk then
        { outcome := .ok (env.refreshed c), files := files, ranFlow := false }
      else { outcome := .error .raised, files := files, ranFlow := false }
    else interactiveAuth env files credentials_file token_file
  | none => interactiveAuth env files credentials_file token_file

/-! ### Concrete authentication scenarios -/

/-- A parsed cached token that is invalid, expired and refreshable. -/
def staleCreds (s : String) : Creds :=
  { valid := false, expired := true, refresh_token := true, json := s }

/-- Environment in which the cached token parses as stale, refresh succeeds
and yields a token serializing to `"REFRESHED"`, and the interactive flow
would also succeed. -/
def refreshOkEnv : AuthEnv :=
  { parseCreds := staleCreds,
    refreshOk := true,
    refreshed := fun c => { c with valid := true, expired := false, json := "REFRESHED" },
    flowOk := true,
    flowCreds := { valid := true, expired := false, refresh_token := true, json := "FLOW" } }

/-- Same environment but `creds.refresh` fails. -/
def refreshFailEnv : AuthEnv :=
  { refreshOkEnv with refreshOk := false }

/-- A filesystem holding a cached token (serialized as `"OLD"`) and the
OAuth credentials file. -/
def authFiles : String → Option String := fun p =>
  if p = "/home/u/token.json" then some "OLD"
  else if p = "/home/u/credentials.json" then some "SECRET"
  else none

/-! ## Audit logger (`log_and_git_commit`, lines 220-264)

The observable effects of a run are collected in an event trace.  The
logger's own exception sources (the log-file write, `os.chdir`, and the four
git subprocesses) are environment flags.  The source's control flow: an
outer `try/except Exception` swallowing everything (lines 261-264), an
inner `try/except CalledProcessError/finally` around the git commands
(lines 240-259) whose `finally` restores the working directory, and an
innermost `try/except` around `git push` alone (lines 249-253). -/

/-- Python `s[:n]`. -/
def pyTake (n : Nat) (s : String) : String :=
  (s.toList.take n).asString

inductive Ev
  | providerSend
  | auditAppend
  | gitAdd
  | gitCommit
  | gitPush
  | warnGit
  | warnPush
  | warnError
deriving DecidableEq

/-- Outcomes of the logger's external calls and clock readings. -/
structure GitEnv where
  /-- the mkdir/open/write of the log file (lines 228-234) succeeds -/
  logWriteOk : Bool
  /-- `os.chdir(str(git_repo))` (line 238) succeeds -/
  chdirOk : Bool
  /-- `git rev-parse --git-dir` succeeds -/
  revParseOk : Bool
  /-- `git add <log_file>` succeeds -/
  addOk : Bool
  /-- `git commit -m ...` succeeds -/
  commitOk : Bool
  /-- `git push` succeeds -/
  pushOk : Bool
  /-- `now.strftime("%Y-%m-%d")` -/
  dateStr : String
  /-- `now.isoformat()` -/
  nowIso : String

/-- The audit record appended to the dated log file (line 234). -/
def logLine (env : GitEnv) (recipients message_text : String) : String :=
  "[" ++ env.nowIso ++ "] Email sent to " ++ recipients ++ "\n"
    ++ pyTake 200 message_text ++ "\n\n"

structure GitResult where
  files : String → Option String
  cwd : String
  trace : List Ev

/-- `log_and_git_commit(git_repo_path, recipients, message_text)`.  Each
early return models an exception path of the source; every inner-section
exit sets the working directory back to `original_dir`, mirroring the
`finally` of line 257. -/
def log_and_git_commit (git_repo_path recipients message_text : String)
    (env : GitEnv) (home : String) (files : String → Option String)
    (cwd : String) : GitResult :=
  if !env.logWriteOk then
    -- exception before any chdir; swallowed by the outer handler
    { files := files, cwd := cwd, trace := [.warnError] }
  else
    let git_repo := expanduser home git_repo_path
    let log_file := git_repo ++ "/clipmail-logs/sent_email_log_"
      ++ env.dateStr ++ ".txt"
    let files1 := fun p =>
      if p = log_file then
        some (((files log_file).getD "") ++ logLine env recipients message_text)
      else files p
    let original_dir := cwd
    if !env.chdirOk then
      -- os.chdir raised; cwd unchanged; swallowed by the outer handler
      { files := files1, cwd := cwd, trace := [.auditAppend, .warnError] }
    else
      -- now inside git_repo; the finally restores original_dir on each path
      if !env.revParseOk then
        { files := files1, cwd := original_dir, trace := [.auditAppend, .warnGit] }
      else if !env.addOk then
        { files := files1, cwd := original_dir,
          trace := [.auditAppend, .gitAdd, .warnGit] }
      else if !env.commitOk then
        { files := files1, cwd := original_dir,
          trace := [.auditAppend, .gitAdd, .gitCommit, .warnGit] }
      else if !env.pushOk then
        { files := files1, cwd := original_dir,
          trace := [.auditAppend, .gitAdd, .gitCommit, .gitPush, .warnPush] }
      else
        { files := files1, cwd := original_dir,
          trace := [.auditAppend, .gitAdd, .gitCommit, .gitPush] }

/-! ## Mail sender (`send_email`, lines 163-218) -/

/-- The MIME message: headers set at lines 170-173, one text part, and at
most one attachment `(filename, payload)`.  The base64 encodings of the
payload and of the full message are not modelled (no claim depends on the
encoded bytes). -/
structure MimeMessage where
  «to» : String
  subject : String
  «from» : String
  body : String
  attachment : Option (String × String)
deriving DecidableEq

/-- Lines 170-177: the MIMEMultipart with its headers and text part. -/
def composeMessage (recipients message_text : String) : MimeMessage :=
  { «to» := recipients, subject := "Clipboard Content",
    «from» := "markaaregan@gmail.com", body := message_text,
    attachment := none }

/-- Lines 186-198: attach the file's payload under its basename. -/
def attachFile (m : MimeMessage) (filename payload : String) : MimeMessage :=
  { m with attachment := some (filename, payload) }

/-- How `send_email` ends: a boolean return, or process termination via the
`SystemExit` that `authenticate_gmail` raises for a missing credentials
file (not caught by `except Exception`). -/
inductive SendOutcome
  | returned (b : Bool)
  | exited
deriving DecidableEq

structure SendEnv where
  /-- the home directory, for `os.path.expanduser` -/
  home : String
  auth : AuthEnv
  /-- whether reading and encoding the attachment (lines 186-199) succeeds -/
  attachReadOk : Bool
  /-- whether the Gmail `send` call (line 208) is accepted -/
  sendOk : Bool
  git : GitEnv

structure SendResult where
  outcome : SendOutcome
  trace : List Ev
  /-- the composed outgoing message, once composition has happened -/
  message : Option MimeMessage
  files : String → Option String
  cwd : String

/-- Lines 204-213: encode, submit to the provider, then log and commit.
`config["git_repo_path"]` raising `KeyError` is caught by the handler at
line 214 and yields `False` (after the send already happened). -/
def sendAndLog (recipients message_text : String) (msg : MimeMessage)
    (config : Config) (env : SendEnv) (files : String → Option String)
    (cwd : String) : SendResult :=
  if !env.sendOk then
    { outcome := .returned false, trace := [.providerSend],
      message := some msg, files := files, cwd := cwd }
  else
    match config.git_repo_path with
    | none =>
      { outcome := .returned false, trace := [.providerSend],
        message := some msg, files := files, cwd := cwd }
    | some repo =>
      { outcome := .returned true,
        trace := .providerSend :: (log_and_git_commit repo recipients
          message_text env.git env.home files cwd).trace,
        message := some msg,
        files := (log_and_git_commit repo recipients message_text env.git
          env.home files cwd).files,
        cwd := (log_and_git_commit repo recipients message_text env.git
          env.home files cwd).cwd }

/-- Lines 165-218 after authentication: compose, attach, transmit, log.
Factored over the result `a` of `authenticate_gmail`. -/
def sendWithAuth (recipients message_text : String)
    (attachment_path : Option String) (config : Config) (env : SendEnv)
    (cwd : String) (a : AuthResult) : SendResult :=
  match a.outcome with
  | .error .exited =>
    { outcome := .exited, trace := [], message := none,
      files := a.files, cwd := cwd }
  | .error .raised =>
    { outcome := .returned false, trace := [], message := none,
      files := a.files, cwd := cwd }
  | .ok _ =>
    match attachment_path with
    | some p =>
      match a.files p with
      | none =>
        -- line 183: attachment file not found, return False before sending
        { outcome := .returned false, trace := [],
          message := some (composeMessage recipients message_text),
          files := a.files, cwd := cwd }
      | some contents =>
        if !env.attachReadOk then
          -- lines 200-202: error attaching the file, return False
          { outcome := .returned false, trace := [],
            message := some (composeMessage recipients message_text),
            files := a.files, cwd := cwd }
        else
          sendAndLog recipients message_text
            (attachFile (composeMessage recipients message_text)
              (basename p) contents) config env a.files cwd
    | none =>
      sendAndLog recipients message_text
        (composeMessage recipients message_text) config env a.files cwd

/-- `send_email(recipients, message_text, attachment_path, config)`. -/
def send_email (recipients message_text : String)
    (attachment_path : Option String) (config : Config) (env : SendEnv)
    (files : String → Option String) (cwd : String) : SendResult :=
  match config.credentials_file, config.token_file with
  | some cf, some tf =>
    sendWithAuth recipients message_text attachment_path config env cwd
      (authenticate_gmail env.home cf tf env.auth files)
  | _, _ =>
    -- KeyError on config["credentials_file"] or config["token_file"],
    -- caught by the handler at line 214
    { outcome := .returned false, trace := [], message := none,
      files := files, cwd := cwd }

/-! ### Concrete sending scenarios -/

/-- Environment in which the cached token parses as valid. -/
def validTokenEnv : AuthEnv :=
  { parseCreds := fun s =>
      { valid := true, expired := false, refresh_token := true, json := s },
    refreshOk := true,
    refreshed := id,
    flowOk := true,
    flowCreds := { valid := true, expired := false, refresh_token := true,
                   json := "FLOW" } }

/-- A fully populated configuration. -/
def okConfig : Config :=
  { credentials_file := some "/home/u/credentials.json",
    token_file := some "/home/u/token.json",
    recipient_emails := some "a@b.example",
    git_repo_path := some "/home/u/repo" }

/-- A git environment in which every git step succeeds. -/
def allOkGitEnv : GitEnv :=
  { logWriteOk := true, chdirOk := true, revParseOk := true, addOk := true,
    commitOk := true, pushOk := true,
    dateStr := "2026-10-12", nowIso := "2026-10-12T10:00:00" }

/-- A git environment in which the repository check and the push fail. -/
def failingGitEnv : GitEnv :=
  { allOkGitEnv with revParseOk := false, pushOk := false }

/-- A send environment in which everything up to the provider succeeds but
the git steps fail. -/
def sendEnvGitFail : SendEnv :=
  { home := "/home/u", auth := validTokenEnv, attachReadOk := true,
    sendOk := true, git := failingGitEnv }

/-- A send environment in which every step succeeds. -/
def sendEnvAllOk : SendEnv :=
  { sendEnvGitFail with git := allOkGitEnv }

/-- A send environment in which the provider rejects the send. -/
def sendEnvSendFail : SendEnv :=
  { sendEnvAllOk with sendOk := false }

/-! ## Theorems for the clipboard and configuration claims -/

/-- `scanFiles` is an in-order first-match scan over the stripped entries. -/
theorem scanFiles_eq_find (ex : String → Bool) (l : List String) :
    scanFiles ex l = (l.map pyStrip).find? (fun x => !x.isEmpty && ex x) := by
  induction l with
  | nil => rfl
  | cons f rest ih =>
    simp only [scanFiles, List.map_cons, List.find?_cons]
    by_cases h : (!(pyStrip f).isEmpty && ex (pyStrip f)) = true
    · simp [h]
    · simp only [Bool.not_eq_true] at h
      simp [h, ih]

/-- C3: the clipboard reader scans the newline-separated candidate paths in
order and selects the first stripped entry that is non-empty and exists on
disk (skipping non-existent entries); whenever the scan finds such an entry
`f`, the reader returns the file-greeting body together with `f`. -/
theorem get_clipboard_first_existing_file (fileRaw textRaw : String)
    (ex : String → Bool) (f : String)
    (hfind : (((pySplitChar '\n' (pyStrip fileRaw)).map pyStrip).find?
        (fun x => !x.isEmpty && ex x)) = some f) :
    get_clipboard_content fileRaw textRaw ex = (some fileBodyGreeting, some f) := by
  unfold get_clipboard_content
  have hscan : scanFiles ex (pySplitChar '\n' (pyStrip fileRaw)) = some f := by
    rw [scanFiles_eq_find]; exact hfind
  by_cases hempty : (pyStrip fileRaw).isEmpty = true
  · exfalso
    have heq : pyStrip fileRaw = "" := (String.isEmpty_iff _).mp hempty
    rw [heq] at hscan
    have hnone : scanFiles ex (pySplitChar '\n' "") = none := rfl
    rw [hnone] at hscan
    exact Option.noConfusion hscan
  · simp only [hempty, Bool.not_false, if_true, hscan]

/-- Witness for C3: a two-path clipboard list where only the second path
exists selects the second file. -/
theorem get_clipboard_first_existing_file_witness :
    get_clipboard_content "/no/such/file\n/tmp/real.txt" "ignored"
      (fun p => p == "/tmp/real.txt")
      = (some fileBodyGreeting, some "/tmp/real.txt") :=
  get_clipboard_first_existing_file "/no/such/file\n/tmp/real.txt" "ignored"
    (fun p => p == "/tmp/real.txt") "/tmp/real.txt" (by decide)

/-- C4: when no clipboard file path is valid and the clipboard text `t` is
non-empty (and carries no surrounding whitespace, matching what `pbpaste`
delivers after the reader's `strip()`), the mail body is the fixed text
greeting concatenated with `t`, and no attachment is selected. -/
theorem get_clipboard_text_body (fileRaw t : String) (ex : String → Bool)
    (hnofile : scanFiles ex (pySplitChar '\n' (pyStrip fileRaw)) = none)
    (hstripped : pyStrip t = t) (hne : t.isEmpty = false) :
    get_clipboard_content fileRaw t ex = (some (textBodyGreeting ++ t), none) := by
  unfold get_clipboard_content
  by_cases hempty : (pyStrip fileRaw).isEmpty = true
  · simp [hempty, hstripped, hne]
  · simp only [Bool.not_eq_true] at hempty
    simp [hempty, hnofile, hstripped, hne]

/-- Witness for C4: clipboard text "hello" with no file paths yields the
fixed greeting followed by "hello". -/
theorem get_clipboard_text_body_witness :
    get_clipboard_content "" "hello" (fun _ => false)
      = (some (textBodyGreeting ++ "hello"), none) :=
  get_clipboard_text_body "" "hello" (fun _ => false) (by decide) (by decide)
    (by decide)

/-- C8: `validate_config` accepts exactly the configurations whose four
fields are all present and non-empty, and on rejection it prints exactly one
error naming the first missing field in the fixed order credentials_file,
token_file, recipient_emails, git_repo_path. -/
theorem validate_config_correct (c : Config) :
    ((validate_config c).1 = true ↔ missingFields c = []) ∧
    (validate_config c).2 =
      ((missingFields c).head?.map requiredMsg).toList := by
  unfold validate_config missingFields
  cases h1 : truthy c.credentials_file <;>
    cases h2 : truthy c.token_file <;>
      cases h3 : truthy c.recipient_emails <;>
        cases h4 : truthy c.git_repo_path <;> simp

/-! ## Theorems for the authentication claims -/

/-- C1 counterexample: with a cached token that is expired and refreshable
and a refresh that succeeds, `authenticate_gmail` returns the refreshed
credentials but leaves the token file unchanged on disk — the file still
holds the old serialization, not the refreshed one, refuting the claim that
the refreshed token is persisted. -/
theorem auth_refresh_not_persisted_counterexample :
    (authenticate_gmail "/home/u" "/home/u/credentials.json" "/home/u/token.json"
        refreshOkEnv authFiles).outcome
      = .ok (refreshOkEnv.refreshed (refreshOkEnv.parseCreds "OLD")) ∧
    (authenticate_gmail "/home/u" "/home/u/credentials.json" "/home/u/token.json"
        refreshOkEnv authFiles).files "/home/u/token.json" = some "OLD" ∧
    (refreshOkEnv.refreshed (refreshOkEnv.parseCreds "OLD")).json = "REFRESHED" ∧
    ¬ ((authenticate_gmail "/home/u" "/home/u/credentials.json" "/home/u/token.json"
        refreshOkEnv authFiles).files "/home/u/token.json"
      = some (refreshOkEnv.refreshed (refreshOkEnv.parseCreds "OLD")).json) := by
  refine ⟨by decide, by decide, by decide, by decide⟩

/-- C1 (amended): if the cached token exists, is not valid, is expired and
refreshable, and the refresh succeeds, `authenticate_gmail` succeeds with
the refreshed in-memory credentials and never starts the interactive flow —
but it writes nothing: the filesystem, in particular the token file, is
returned unchanged.  (The token file is only rewritten by the interactive
branch.) -/
theorem auth_refresh_in_memory_only (home cf tf : String) (env : AuthEnv)
    (files : String → Option String) (s : String)
    (htok : files (expanduser home tf) = some s)
    (hvalid : (env.parseCreds s).valid = false)
    (hexp : (env.parseCreds s).expired = true)
    (hrt : (env.parseCreds s).refresh_token = true)
    (hok : env.refreshOk = true) :
    (authenticate_gmail home cf tf env files).outcome
        = .ok (env.refreshed (env.parseCreds s)) ∧
    (authenticate_gmail home cf tf env files).files = files ∧
    (authenticate_gmail home cf tf env files).ranFlow = false := by
  unfold authenticate_gmail
  simp only [htok, Option.map_some]
  simp [hvalid, hexp, hrt, hok]

/-- Witness for the amended C1 at the concrete refresh scenario. -/
theorem auth_refresh_in_memory_only_witness :
    (authenticate_gmail "/home/u" "/home/u/credentials.json" "/home/u/token.json"
        refreshOkEnv authFiles).outcome
        = .ok (refreshOkEnv.refreshed (refreshOkEnv.parseCreds "OLD")) ∧
    (authenticate_gmail "/home/u" "/home/u/credentials.json" "/home/u/token.json"
        refreshOkEnv authFiles).files = authFiles ∧
    (authenticate_gmail "/home/u" "/home/u/credentials.json" "/home/u/token.json"
        refreshOkEnv authFiles).ranFlow = false :=
  auth_refresh_in_memory_only "/home/u" "/home/u/credentials.json"
    "/home/u/token.json" refreshOkEnv authFiles "OLD" (by decide) rfl rfl rfl rfl

/-- C2 counterexample: with a stale refreshable cached token whose refresh
fails — and even though the OAuth credentials file is present and the
interactive flow would succeed — `authenticate_gmail` raises (the refresh
failure is re-raised) and the interactive flow is never started, refuting
the claimed fallback to interactive re-authorization. -/
theorem auth_refresh_failure_no_fallback_counterexample :
    (authenticate_gmail "/home/u" "/home/u/credentials.json" "/home/u/token.json"
        refreshFailEnv authFiles).outcome = .error .raised ∧
    (authenticate_gmail "/home/u" "/home/u/credentials.json" "/home/u/token.json"
        refreshFailEnv authFiles).ranFlow = false ∧
    authFiles "/home/u/credentials.json" ≠ none ∧
    refreshFailEnv.flowOk = true :=
  ⟨by decide, by decide, by decide, rfl⟩

/-- C2 (amended): when the cached token is expired and refreshable but the
refresh fails, the failure propagates out of `authenticate_gmail` as a
re-raised exception; the interactive authorization flow is not attempted and
the filesystem is unchanged.  (The caller `send_email` catches the exception
and reports failure for the run.) -/
theorem auth_refresh_failure_raises (home cf tf : String) (env : AuthEnv)
    (files : String → Option String) (s : String)
    (htok : files (expanduser home tf) = some s)
    (hvalid : (env.parseCreds s).valid = false)
    (hexp : (env.parseCreds s).expired = true)
    (hrt : (env.parseCreds s).refresh_token = true)
    (hfail : env.refreshOk = false) :
    (authenticate_gmail home cf tf env files).outcome = .error .raised ∧
    (authenticate_gmail home cf tf env files).files = files ∧
    (authenticate_gmail home cf tf env files).ranFlow = false := by
  unfold authenticate_gmail
  simp only [htok, Option.map_some]
  simp [hvalid, hexp, hrt, hfail]

/-- Witness for the amended C2 at the concrete failed-refresh scenario. -/
theorem auth_refresh_failure_raises_witness :
    (authenticate_gmail "/home/u" "/home/u/credentials.json" "/home/u/token.json"
        refreshFailEnv authFiles).outcome = .error .raised ∧
    (authenticate_gmail "/home/u" "/home/u/credentials.json" "/home/u/token.json"
        refreshFailEnv authFiles).files = authFiles ∧
    (authenticate_gmail "/home/u" "/home/u/credentials.json" "/home/u/token.json"
        refreshFailEnv authFiles).ranFlow = false :=
  auth_refresh_failure_raises "/home/u" "/home/u/credentials.json"
    "/home/u/token.json" refreshFailEnv authFiles "OLD" (by decide) rfl rfl rfl rfl


/-! ## Theorems for the sending and logging claims -/

/-- Helper: `sendAndLog` always records the composed message. -/
theorem sendAndLog_message (r t : String) (msg : MimeMessage) (config : Config)
    (env : SendEnv) (files : String → Option String) (cwd : String) :
    (sendAndLog r t msg config env files cwd).message = some msg := by
  unfold sendAndLog
  cases hs : env.sendOk <;> cases hrepo : config.git_repo_path <;> simp

/-- Helper: if the provider accepts and the git repo path is configured,
`sendAndLog` returns `True`. -/
theorem sendAndLog_success (r t : String) (msg : MimeMessage) (config : Config)
    (env : SendEnv) (files : String → Option String) (cwd : String)
    (repo : String) (hsend : env.sendOk = true)
    (hrepo : config.git_repo_path = some repo) :
    (sendAndLog r t msg config env files cwd).outcome = .returned true := by
  unfold sendAndLog
  rw [hsend, hrepo]
  simp

/-- Helper: an audit append in `sendAndLog`'s trace means the provider send
was attempted, accepted, and the call returns `True`. -/
theorem sendAndLog_audit (r t : String) (msg : MimeMessage) (config : Config)
    (env : SendEnv) (files : String → Option String) (cwd : String)
    (h : Ev.auditAppend ∈ (sendAndLog r t msg config env files cwd).trace) :
    env.sendOk = true ∧
    Ev.providerSend ∈ (sendAndLog r t msg config env files cwd).trace ∧
    (sendAndLog r t msg config env files cwd).outcome = .returned true := by
  unfold sendAndLog at h ⊢
  cases hs : env.sendOk with
  | false => rw [hs] at h; simp at h
  | true =>
    rw [hs] at h
    cases hrepo : config.git_repo_path with
    | none => rw [hrepo] at h; simp at h
    | some repo => simp

/-- Helper: an attachment path whose file is absent makes `sendWithAuth`
return `False` without a provider send, as long as authentication did not
terminate the process. -/
theorem sendWithAuth_attach_missing (r t p : String) (config : Config)
    (env : SendEnv) (cwd : String) (a : AuthResult)
    (hnoexit : a.outcome ≠ .error .exited)
    (hmiss : a.files p = none) :
    (sendWithAuth r t (some p) config env cwd a).outcome = .returned false ∧
    Ev.providerSend ∉ (sendWithAuth r t (some p) config env cwd a).trace := by
  unfold sendWithAuth
  cases ho : a.outcome with
  | error e =>
    cases e
    · exact absurd ho hnoexit
    · exact ⟨rfl, by simp⟩
  | ok c =>
    refine ⟨?_, ?_⟩ <;> simp [hmiss]

/-- Helper: `sendWithAuth` returns `True` once authentication succeeded,
the attachment (if any) is readable, and the provider accepts — for any
`GitEnv` whatsoever. -/
theorem sendWithAuth_success (r t : String) (ap : Option String)
    (config : Config) (env : SendEnv) (cwd : String) (a : AuthResult)
    (c : Creds) (repo : String)
    (hauth : a.outcome = .ok c)
    (hrepo : config.git_repo_path = some repo)
    (hsend : env.sendOk = true)
    (hattach : ap = none ∨ ∃ p contents, ap = some p ∧
      a.files p = some contents ∧ env.attachReadOk = true) :
    (sendWithAuth r t ap config env cwd a).outcome = .returned true := by
  unfold sendWithAuth
  rw [hauth]
  rcases hattach with hnone | ⟨p, contents, hp, hfile, hread⟩
  · subst hnone
    exact sendAndLog_success r t _ config env a.files cwd repo hsend hrepo
  · subst hp
    have hgoal := sendAndLog_success r t (attachFile (composeMessage r t)
      (basename p) contents) config env a.files cwd repo hsend hrepo
    simpa [hfile, hread] using hgoal

/-- Helper: an audit append in `sendWithAuth`'s trace means the provider
send was attempted, accepted, and the run returned `True`. -/
theorem sendWithAuth_audit (r t : String) (ap : Option String)
    (config : Config) (env : SendEnv) (cwd : String) (a : AuthResult)
    (h : Ev.auditAppend ∈ (sendWithAuth r t ap config env cwd a).trace) :
    env.sendOk = true ∧
    Ev.providerSend ∈ (sendWithAuth r t ap config env cwd a).trace ∧
    (sendWithAuth r t ap config env cwd a).outcome = .returned true := by
  unfold sendWithAuth at h ⊢
  cases ho : a.outcome with
  | error e => rw [ho] at h; cases e <;> simp at h
  | ok c =>
    rw [ho] at h
    cases ap with
    | none => exact sendAndLog_audit r t _ config env a.files cwd h
    | some p =>
      cases hf : a.files p with
      | none => simp [hf] at h
      | some contents =>
        cases hr : env.attachReadOk with
        | false => simp [hf, hr] at h
        | true =>
          simp [hf, hr] at h ⊢
          exact sendAndLog_audit r t _ config env a.files cwd h

/-- Helper: every message `sendWithAuth` records carries the hardcoded
sender address. -/
theorem sendWithAuth_message (r t : String) (ap : Option String)
    (config : Config) (env : SendEnv) (cwd : String) (a : AuthResult)
    (m : MimeMessage)
    (h : (sendWithAuth r t ap config env cwd a).message = some m) :
    m.«from» = "markaaregan@gmail.com" := by
  unfold sendWithAuth at h
  cases ho : a.outcome with
  | error e => rw [ho] at h; cases e <;> simp at h
  | ok c =>
    rw [ho] at h
    cases ap with
    | none =>
      have h2 : (sendAndLog r t (composeMessage r t) config env a.files
        cwd).message = some m := h
      rw [sendAndLog_message] at h2
      injection h2 with h3
      rw [← h3]; rfl
    | some p =>
      cases hf : a.files p with
      | none =>
        simp [hf] at h
        subst h; rfl
      | some contents =>
        cases hr : env.attachReadOk with
        | false =>
          simp [hf, hr] at h
          subst h; rfl
        | true =>
          simp [hf, hr, sendAndLog_message] at h
          subst h; rfl

/-- C5: when an attachment path is provided but no file exists at that path
at send time, `send_email` returns `False` and the provider send call is
never attempted.  (The hypotheses exclude the unrelated `sys.exit(1)` path
for a missing OAuth credentials file, on which `send_email` terminates the
process instead of returning.) -/
theorem send_missing_attachment_fails (recipients message_text p : String)
    (config : Config) (env : SendEnv) (files : String → Option String)
    (cwd : String)
    (hnoexit : ∀ cf tf, config.credentials_file = some cf →
      config.token_file = some tf →
      (authenticate_gmail env.home cf tf env.auth files).outcome
        ≠ .error .exited)
    (hmissing : ∀ cf tf, config.credentials_file = some cf →
      config.token_file = some tf →
      (authenticate_gmail env.home cf tf env.auth files).files p = none) :
    (send_email recipients message_text (some p) config env files cwd).outcome
        = .returned false ∧
    Ev.providerSend
      ∉ (send_email recipients message_text (some p) config env files
        cwd).trace := by
  unfold send_email
  cases hcf : config.credentials_file with
  | none => exact ⟨rfl, by simp⟩
  | some cf =>
    cases htf : config.token_file with
    | none => exact ⟨rfl, by simp⟩
    | some tf =>
      exact sendWithAuth_attach_missing recipients message_text p config env
        cwd _ (hnoexit cf tf hcf htf) (hmissing cf tf hcf htf)

/-- Witness for C5: a run with a valid cached token and a non-existent
attachment path returns `False` without a provider send. -/
theorem send_missing_attachment_fails_witness :
    (send_email "a@b.example" "hi" (some "/no/such/file") okConfig
        sendEnvAllOk authFiles "/start").outcome = .returned false ∧
    Ev.providerSend ∉ (send_email "a@b.example" "hi" (some "/no/such/file")
        okConfig sendEnvAllOk authFiles "/start").trace :=
  send_missing_attachment_fails "a@b.example" "hi" "/no/such/file" okConfig
    sendEnvAllOk authFiles "/start"
    (by intro cf tf hcf htf; cases hcf; cases htf; decide)
    (by intro cf tf hcf htf; cases hcf; cases htf; decide)

/-- C6: once the provider has accepted the message, `send_email` returns
`True` whatever happens in the audit step — the statement holds for every
`GitEnv`, so it covers a failing repository check, add, commit, and push;
none of them flips the run to failed. -/
theorem send_success_despite_git_failures (recipients message_text : String)
    (attachment_path : Option String) (config : Config) (env : SendEnv)
    (files : String → Option String) (cwd : String) (cf tf repo : String)
    (c : Creds)
    (hcf : config.credentials_file = some cf)
    (htf : config.token_file = some tf)
    (hrepo : config.git_repo_path = some repo)
    (hauth : (authenticate_gmail env.home cf tf env.auth files).outcome = .ok c)
    (hattach : attachment_path = none ∨ ∃ p contents,
      attachment_path = some p ∧
      (authenticate_gmail env.home cf tf env.auth files).files p
        = some contents ∧
      env.attachReadOk = true)
    (hsend : env.sendOk = true) :
    (send_email recipients message_text attachment_path config env files
      cwd).outcome = .returned true := by
  unfold send_email
  rw [hcf, htf]
  exact sendWithAuth_success recipients message_text attachment_path config
    env cwd _ c repo hauth hrepo hsend hattach

/-- Witness for C6: a successful send followed by a failing repository
check and a failing push still reports success. -/
theorem send_success_despite_git_failures_witness :
    (send_email "a@b.example" "hi" none okConfig sendEnvGitFail authFiles
      "/start").outcome = .returned true :=
  send_success_despite_git_failures "a@b.example" "hi" none okConfig
    sendEnvGitFail authFiles "/start" "/home/u/credentials.json"
    "/home/u/token.json" "/home/u/repo"
    (validTokenEnv.parseCreds "OLD") rfl rfl rfl (by decide) (Or.inl rfl) rfl

/-- C7: `log_and_git_commit` returns with the working directory it was
entered with, on every exit path — including a failing log write, a failing
`os.chdir`, and a failure of any of the git commands. -/
theorem git_commit_restores_cwd (git_repo_path recipients message_text : String)
    (env : GitEnv) (home : String) (files : String → Option String)
    (cwd : String) :
    (log_and_git_commit git_repo_path recipients message_text env home files
      cwd).cwd = cwd := by
  unfold log_and_git_commit
  cases env.logWriteOk <;> cases env.chdirOk <;> cases env.revParseOk <;>
    cases env.addOk <;> cases env.commitOk <;> cases env.pushOk <;> simp

/-- C9: an audit record is appended only on runs where the provider send
was attempted and accepted: whenever `auditAppend` is in the trace, the
provider accepted the message (`sendOk`), the send call appears in the
trace, and the run returned `True`.  Contrapositively, a run on which
authentication, composition, or the provider send raises writes no audit
log entry. -/
theorem audit_only_after_send (recipients message_text : String)
    (attachment_path : Option String) (config : Config) (env : SendEnv)
    (files : String → Option String) (cwd : String)
    (h : Ev.auditAppend ∈ (send_email recipients message_text attachment_path
      config env files cwd).trace) :
    env.sendOk = true ∧
    Ev.providerSend ∈ (send_email recipients message_text attachment_path
      config env files cwd).trace ∧
    (send_email recipients message_text attachment_path config env files
      cwd).outcome = .returned true := by
  unfold send_email at h ⊢
  cases hcf : config.credentials_file with
  | none => rw [hcf] at h; simp at h
  | some cf =>
    cases htf : config.token_file with
    | none => rw [hcf, htf] at h; simp at h
    | some tf =>
      rw [hcf, htf] at h
      exact sendWithAuth_audit recipients message_text attachment_path config
        env cwd _ h

/-- Witness for C9: a fully successful run does append an audit record, and
the theorem recovers that the provider send was attempted and accepted. -/
theorem audit_only_after_send_witness :
    sendEnvAllOk.sendOk = true ∧
    Ev.providerSend ∈ (send_email "a@b.example" "hi" none okConfig
      sendEnvAllOk authFiles "/start").trace ∧
    (send_email "a@b.example" "hi" none okConfig sendEnvAllOk authFiles
      "/start").outcome = .returned true :=
  audit_only_after_send "a@b.example" "hi" none okConfig sendEnvAllOk
    authFiles "/start" (by decide)

/-- C10: every message `send_email` composes carries the hardcoded literal
From address "markaaregan@gmail.com", whatever the configuration, the
recipients, and the attachment are. -/
theorem message_sender_hardcoded (recipients message_text : String)
    (attachment_path : Option String) (config : Config) (env : SendEnv)
    (files : String → Option String) (cwd : String) (m : MimeMessage)
    (h : (send_email recipients message_text attachment_path config env files
      cwd).message = some m) :
    m.«from» = "markaaregan@gmail.com" := by
  unfold send_email at h
  cases hcf : config.credentials_file with
  | none => rw [hcf] at h; simp at h
  | some cf =>
    cases htf : config.token_file with
    | none => rw [hcf, htf] at h; simp at h
    | some tf =>
      rw [hcf, htf] at h
      exact sendWithAuth_message recipients message_text attachment_path
        config env cwd _ m h

/-- Witness for C10: the message of a successful run has the hardcoded
sender. -/
theorem message_sender_hardcoded_witness :
    (composeMessage "a@b.example" "hi").«from» = "markaaregan@gmail.com" :=
  message_sender_hardcoded "a@b.example" "hi" none okConfig sendEnvAllOk
    authFiles "/start" (composeMessage "a@b.example" "hi") (by decide)

end Clipmail
